import Mathlib

/-!
Verification of the ride-pool seat-ledger subsystem.

Shallow embedding of the ride lifecycle operations of the service:

* `book`          — the POST /rides/book-ride handler (routes/rideRoutes.js)
* `cancelRide`    — the POST /rides/cancel-ride handler (routes/rideRoutes.js)
* `acceptRequest` / `rejectRequest`
                  — the POST /accepted and POST /rejected handlers
                    (routes/rideAgreements.js)
* `sweep`         — the periodic ride-status cron job (api.js)

The relational store is modelled as lists of records; a SQL
`SELECT ... WHERE id = ?` becomes `List.find?`, an
`UPDATE ... WHERE id = ?` becomes a `List.map` that rewrites every row
whose key matches, and an `INSERT` appends a row.  Identifiers are `Nat`,
seat counts are `Int` (the columns are SQL INT and the handlers do no
range validation), and a ride's scheduled date+time is a single `Nat`
timestamp, ordered as `CONCAT(date, ' ', time)` is by `NOW()`.
The JavaScript falsy check `if (!rideId || !seats)` rejects `seats = 0`,
which is modelled literally.
-/

namespace RidePool

/-- Ride status enumeration: ENUM('open', 'full', 'completed', 'canceled'). -/
inductive RideStatus where
  | open_
  | full
  | completed
  | canceled
deriving DecidableEq, Repr

/-- Booking status enumeration: ENUM('pending', 'confirmed', 'cancelled'). -/
inductive BookingStatus where
  | pending
  | confirmed
  | cancelled
deriving DecidableEq, Repr

/-- Ride-request status enumeration: ENUM('pending', 'accepted', 'rejected'). -/
inductive ReqStatus where
  | pending
  | accepted
  | rejected
deriving DecidableEq, Repr

/-- A row of the `rides` table. -/
structure Ride where
  id : Nat
  user_id : Nat
  dateTime : Nat
  seats_available : Int
  status : RideStatus
deriving DecidableEq, Repr

/-- A row of the `bookings` table. -/
structure Booking where
  id : Nat
  user_id : Nat
  ride_id : Nat
  seats : Int
  status : BookingStatus
deriving DecidableEq, Repr

/-- A row of the `ride_requests` table (columns as used by the INSERT in
routes/rideAgreements.js). -/
structure RideRequest where
  id : Nat
  ride_id : Nat
  passenger_id : Nat
  driver_id : Nat
  vehicle_id : Nat
  status : ReqStatus
deriving DecidableEq, Repr

/-- The shared store: the tables the ride-lifecycle operations touch. -/
structure DB where
  rides : List Ride
  bookings : List Booking
  ride_requests : List RideRequest
deriving DecidableEq, Repr

/-- `['completed', 'canceled'].includes(status)`. -/
def isTerminal (s : RideStatus) : Bool :=
  s == .completed || s == .canceled

/-- `SELECT ... FROM rides WHERE id = ?`. -/
def findRide (rides : List Ride) (rideId : Nat) : Option Ride :=
  rides.find? (fun r => r.id == rideId)

/-- `SELECT * FROM bookings WHERE user_id = ? AND ride_id = ? AND status = 'confirmed'`. -/
def confirmedBookings (bookings : List Booking) (userId rideId : Nat) : List Booking :=
  bookings.filter (fun b => b.user_id == userId && b.ride_id == rideId && b.status == .confirmed)

/-- Row rewrite of `UPDATE rides SET seats_available = seats_available - ? WHERE id = ?`. -/
def updateSeats (rideId : Nat) (seats : Int) (r : Ride) : Ride :=
  if r.id == rideId then { r with seats_available := r.seats_available - seats } else r

/-- Row rewrite of `UPDATE rides SET status = 'full' WHERE id = ?`. -/
def markFull (rideId : Nat) (r : Ride) : Ride :=
  if r.id == rideId then { r with status := .full } else r

/-- Row rewrite of `UPDATE rides SET status = 'canceled' WHERE id = ?`. -/
def markCanceled (rideId : Nat) (r : Ride) : Ride :=
  if r.id == rideId then { r with status := .canceled } else r

/-- Row rewrite of `UPDATE ride_requests SET status = ? WHERE id = ?`. -/
def setReqStatus (requestId : Nat) (s : ReqStatus) (q : RideRequest) : RideRequest :=
  if q.id == requestId then { q with status := s } else q

/-- Externally visible outcome of the book-ride handler. -/
inductive BookResult where
  | missingFields            -- 400 'Ride ID and number of seats are required.'
  | notFound                 -- 404 'Ride not found.'
  | invalidState (s : RideStatus)  -- 400 'This ride has been <status>.'
  | capacityExceeded         -- 400 'Not enough seats available.'
  | duplicateBooking         -- 400 'You already have a confirmed booking for this ride.'
  | internalErr              -- 500 (re-read after the seat update found no row)
  | booked                   -- 201 'Ride booked successfully.'
deriving DecidableEq, Repr

/-- The write phase of the book-ride handler, reached once every guard has
passed: INSERT the pending booking, decrement `seats_available`, re-read the
row, and flip the status to `full` when the re-read value is exactly 0. -/
def bookApply (db : DB) (userId rideId : Nat) (seats : Int) (newId : Nat) : DB × BookResult :=
  match findRide (db.rides.map (updateSeats rideId seats)) rideId with
  | none =>
      ({ rides := db.rides.map (updateSeats rideId seats),
         bookings := db.bookings ++
           [{ id := newId, user_id := userId, ride_id := rideId, seats := seats,
              status := BookingStatus.pending }],
         ride_requests := db.ride_requests },
       .internalErr)
  | some updated =>
      if updated.seats_available == 0 then
        ({ rides := (db.rides.map (updateSeats rideId seats)).map (markFull rideId),
           bookings := db.bookings ++
             [{ id := newId, user_id := userId, ride_id := rideId, seats := seats,
                status := BookingStatus.pending }],
           ride_requests := db.ride_requests },
         .booked)
      else
        ({ rides := db.rides.map (updateSeats rideId seats),
           bookings := db.bookings ++
             [{ id := newId, user_id := userId, ride_id := rideId, seats := seats,
                status := BookingStatus.pending }],
           ride_requests := db.ride_requests },
         .booked)

/-- POST /rides/book-ride.  Guards in source order: the falsy-field check
(`!seats`, which rejects a literal 0), ride existence, terminal status,
capacity, and the confirmed-duplicate check; then the write phase. -/
def book (db : DB) (userId rideId : Nat) (seats : Int) (newId : Nat) : DB × BookResult :=
  if seats == 0 then
    (db, .missingFields)
  else
    match findRide db.rides rideId with
    | none => (db, .notFound)
    | some rideDetails =>
      if isTerminal rideDetails.status then
        (db, .invalidState rideDetails.status)
      else if rideDetails.seats_available < seats then
        (db, .capacityExceeded)
      else if 0 < (confirmedBookings db.bookings userId rideId).length then
        (db, .duplicateBooking)
      else
        bookApply db userId rideId seats newId

/-- Externally visible outcome of the cancel-ride handler. -/
inductive CancelResult where
  | forbidden   -- 403 'Ride not found or not yours to cancel'
  | canceled    -- 200 'Ride canceled successfully'
deriving DecidableEq, Repr

/-- POST /rides/cancel-ride: the ownership lookup
(`SELECT * FROM rides WHERE id = ? AND user_id = ?`) merges the missing-row
and wrong-owner cases into one 403; on success the status is overwritten to
`canceled` with no check of the current status. -/
def cancelRide (db : DB) (rideId userId : Nat) : DB × CancelResult :=
  match db.rides.find? (fun r => r.id == rideId && r.user_id == userId) with
  | none => (db, .forbidden)
  | some _ =>
      ({ db with rides := db.rides.map (markCanceled rideId) }, .canceled)

/-- Externally visible outcome of the accept/reject ride-request handlers. -/
inductive ReqResult where
  | unauthorized   -- 403 'Unauthorized action'
  | ok             -- 200
deriving DecidableEq, Repr

/-- POST /accepted: authorization lookup
(`SELECT id FROM ride_requests WHERE id = ? AND driver_id = ?`), then an
unconditional `UPDATE ride_requests SET status = "accepted" WHERE id = ?`. -/
def acceptRequest (db : DB) (requestId driverId : Nat) : DB × ReqResult :=
  match db.ride_requests.find? (fun q => q.id == requestId && q.driver_id == driverId) with
  | none => (db, .unauthorized)
  | some _ =>
      ({ db with ride_requests := db.ride_requests.map (setReqStatus requestId .accepted) },
       .ok)

/-- POST /rejected: same authorization lookup, then an unconditional
`UPDATE ride_requests SET status = "rejected" WHERE id = ?`. -/
def rejectRequest (db : DB) (requestId driverId : Nat) : DB × ReqResult :=
  match db.ride_requests.find? (fun q => q.id == requestId && q.driver_id == driverId) with
  | none => (db, .unauthorized)
  | some _ =>
      ({ db with ride_requests := db.ride_requests.map (setReqStatus requestId .rejected) },
       .ok)

/-- Row rewrite of the sweeper's
`UPDATE rides SET status = 'completed' WHERE CONCAT(date, ' ', time) < NOW()
AND status NOT IN ('completed', 'canceled')`. -/
def sweepRide (now : Nat) (r : Ride) : Ride :=
  if r.dateTime < now && !isTerminal r.status then { r with status := .completed } else r

/-- One run of the cron sweeper at time `now`. -/
def sweep (db : DB) (now : Nat) : DB :=
  { db with rides := db.rides.map (sweepRide now) }

/-- One inbound book-ride call: caller identity, target ride, requested seat
count, and the fresh UUID the handler would mint for the booking row. -/
structure BookCall where
  userId : Nat
  rideId : Nat
  seats : Int
  newId : Nat
deriving DecidableEq, Repr

/-- The store after a book-ride call (discarding the HTTP response). -/
def bookDB (db : DB) (c : BookCall) : DB :=
  (book db c.userId c.rideId c.seats c.newId).1

/-- The store after a sequence of book-ride calls. -/
def runBooks (db : DB) (cs : List BookCall) : DB :=
  cs.foldl bookDB db

/-- Sum of seat counts over the non-cancelled bookings of a ride: the
observable of the spec's capacity invariant. -/
def nonCancelledSum (bookings : List Booking) (rideId : Nat) : Int :=
  ((bookings.filter (fun b => b.ride_id == rideId && !(b.status == .cancelled))).map
    Booking.seats).sum

/-! ### Helper lemmas about the embedded store operations -/

/-- A row-rewriting UPDATE commutes with a row lookup whose predicate the
rewrite preserves: the lookup finds the rewritten image of the original row. -/
theorem find_map_pres {α : Type} (f : α → α) (p : α → Bool)
    (hf : ∀ a, p (f a) = p a) :
    ∀ l : List α, (l.map f).find? p = (l.find? p).map f := by
  intro l
  induction l with
  | nil => rfl
  | cons a t ih =>
    by_cases hpa : p a = true
    · simp [List.find?_cons_of_pos, hpa, hf a]
    · have hpa' : p a = false := by
        cases h : p a
        · rfl
        · exact absurd h hpa
      have hfa : p (f a) = false := by rw [hf a, hpa']
      rw [List.map_cons, List.find?_cons_of_neg _ (by simp [hfa]),
        List.find?_cons_of_neg _ (by simp [hpa']), ih]

theorem updateSeats_id (rideId : Nat) (seats : Int) (r : Ride) :
    (updateSeats rideId seats r).id = r.id := by
  unfold updateSeats
  split <;> rfl

theorem markFull_id (rideId : Nat) (r : Ride) :
    (markFull rideId r).id = r.id := by
  unfold markFull
  split <;> rfl

theorem markCanceled_id (rideId : Nat) (r : Ride) :
    (markCanceled rideId r).id = r.id := by
  unfold markCanceled
  split <;> rfl

theorem setReqStatus_id (requestId : Nat) (s : ReqStatus) (q : RideRequest) :
    (setReqStatus requestId s q).id = q.id := by
  unfold setReqStatus
  split <;> rfl

theorem findRide_map_updateSeats (rides : List Ride) (rid : Nat) (s : Int) (rid' : Nat) :
    findRide (rides.map (updateSeats rid s)) rid' =
      (findRide rides rid').map (updateSeats rid s) := by
  unfold findRide
  exact find_map_pres _ _ (fun a => by rw [updateSeats_id]) rides

theorem findRide_map_markFull (rides : List Ride) (rid : Nat) (rid' : Nat) :
    findRide (rides.map (markFull rid)) rid' =
      (findRide rides rid').map (markFull rid) := by
  unfold findRide
  exact find_map_pres _ _ (fun a => by rw [markFull_id]) rides

theorem findRide_map_markCanceled (rides : List Ride) (rid : Nat) (rid' : Nat) :
    findRide (rides.map (markCanceled rid)) rid' =
      (findRide rides rid').map (markCanceled rid) := by
  unfold findRide
  exact find_map_pres _ _ (fun a => by rw [markCanceled_id]) rides

/-- The id of a row returned by `findRide` is the id looked up. -/
theorem findRide_some_id {rides : List Ride} {rid : Nat} {r : Ride}
    (h : findRide rides rid = some r) : r.id = rid := by
  have := List.find?_some h
  simpa using this

/-- Appending one booking row shifts the non-cancelled sum of a ride by that
row's seat count when the row is a non-cancelled booking of the ride, and
leaves it unchanged otherwise. -/
theorem nonCancelledSum_append (bs : List Booking) (b : Booking) (rid : Nat) :
    nonCancelledSum (bs ++ [b]) rid =
      nonCancelledSum bs rid +
        (if b.ride_id = rid ∧ b.status ≠ .cancelled then b.seats else 0) := by
  unfold nonCancelledSum
  rw [List.filter_append, List.map_append, List.sum_append]
  congr 1
  cases hp : (b.ride_id == rid && !(b.status == BookingStatus.cancelled)) with
  | true =>
    have h1 : b.ride_id = rid := by
      have := ((Bool.and_eq_true _ _).mp hp).1
      simpa using this
    have h2 : b.status ≠ BookingStatus.cancelled := by
      have := ((Bool.and_eq_true _ _).mp hp).2
      simpa using this
    rw [if_pos ⟨h1, h2⟩]
    simp [List.filter_cons, hp]
  | false =>
    have hnot : ¬(b.ride_id = rid ∧ b.status ≠ BookingStatus.cancelled) := by
      intro hcon
      simp [hcon.1, hcon.2] at hp
    rw [if_neg hnot]
    simp [List.filter_cons, hp]

/-- Write phase of a successful booking: the response is 201, the pending
booking row is appended, ride requests are untouched, and the booked ride's
row ends with `seats_available` decremented by `seats` and status flipped to
`full` exactly when the decremented value is 0. -/
theorem bookApply_spec (db : DB) (userId rideId : Nat) (seats : Int) (newId : Nat)
    (r : Ride) (hfind : findRide db.rides rideId = some r) :
    (bookApply db userId rideId seats newId).2 = .booked ∧
    (bookApply db userId rideId seats newId).1.bookings =
      db.bookings ++ [⟨newId, userId, rideId, seats, .pending⟩] ∧
    (bookApply db userId rideId seats newId).1.ride_requests = db.ride_requests ∧
    findRide (bookApply db userId rideId seats newId).1.rides rideId =
      some { r with seats_available := r.seats_available - seats,
                    status := if r.seats_available - seats = 0 then .full else r.status } := by
  have hid : r.id = rideId := findRide_some_id hfind
  have hfind2 : findRide (db.rides.map (updateSeats rideId seats)) rideId =
      some { r with seats_available := r.seats_available - seats } := by
    rw [findRide_map_updateSeats, hfind]
    show some (updateSeats rideId seats r) = _
    unfold updateSeats
    rw [if_pos (show (r.id == rideId) = true by simp [hid])]
  unfold bookApply
  split
  next hnone =>
    rw [hfind2] at hnone
    cases hnone
  next updated hupd =>
    rw [hfind2] at hupd
    injection hupd with hupd
    subst hupd
    split
    next hz =>
      have hz' : r.seats_available - seats = 0 := by simpa using hz
      refine ⟨rfl, rfl, rfl, ?_⟩
      rw [findRide_map_markFull, hfind2]
      show some (markFull rideId _) = _
      unfold markFull
      rw [if_pos (show (Ride.id _ == rideId) = true by simp [hid]), if_pos hz']
    next hz =>
      have hz' : ¬ r.seats_available - seats = 0 := by simpa using hz
      refine ⟨rfl, rfl, rfl, ?_⟩
      rw [hfind2, if_neg hz']

/-- The write phase does not touch ride rows other than the booked one. -/
theorem bookApply_other (db : DB) (userId rideId : Nat) (seats : Int) (newId : Nat)
    (rid' : Nat) (hne : rid' ≠ rideId) :
    findRide (bookApply db userId rideId seats newId).1.rides rid' =
      findRide db.rides rid' := by
  have hupd : findRide (db.rides.map (updateSeats rideId seats)) rid' =
      findRide db.rides rid' := by
    rw [findRide_map_updateSeats]
    cases hf : findRide db.rides rid' with
    | none => rfl
    | some r =>
      have hid : r.id = rid' := findRide_some_id hf
      show some (updateSeats rideId seats r) = _
      unfold updateSeats
      rw [if_neg (show ¬ (r.id == rideId) = true by simp [hid, hne])]
  unfold bookApply
  split
  next => exact hupd
  next updated hupd2 =>
    split
    next =>
      show findRide ((db.rides.map (updateSeats rideId seats)).map (markFull rideId)) rid' = _
      rw [findRide_map_markFull, hupd]
      cases hf : findRide db.rides rid' with
      | none => rfl
      | some r =>
        have hid : r.id = rid' := findRide_some_id hf
        show some (markFull rideId r) = _
        unfold markFull
        rw [if_neg (show ¬ (r.id == rideId) = true by simp [hid, hne])]
    next => exact hupd

/-- Dichotomy for a book-ride call: either some guard failed and the store is
untouched, or every guard passed and the call is exactly the write phase. -/
theorem book_cases (db : DB) (userId rideId : Nat) (seats : Int) (newId : Nat) :
    (book db userId rideId seats newId).1 = db ∨
    ∃ r, findRide db.rides rideId = some r ∧ isTerminal r.status = false ∧
      seats ≤ r.seats_available ∧ seats ≠ 0 ∧
      book db userId rideId seats newId = bookApply db userId rideId seats newId := by
  unfold book
  split
  · exact Or.inl rfl
  next h0 =>
    split
    next => exact Or.inl rfl
    next rd hf =>
      split
      next => exact Or.inl rfl
      next ht =>
        split
        next => exact Or.inl rfl
        next hc =>
          split
          next => exact Or.inl rfl
          next =>
            exact Or.inr ⟨rd, hf, by simpa using ht, le_of_not_lt hc,
              by simpa using h0, rfl⟩

/-- Seat-conservation invariant for one ride: the row is present, the booked
seats plus the remaining seats equal the original capacity, and the remaining
seat count is non-negative. -/
def rideInv (db : DB) (rid : Nat) (cap : Int) : Prop :=
  ∃ r, findRide db.rides rid = some r ∧
    nonCancelledSum db.bookings rid + r.seats_available = cap ∧
    0 ≤ r.seats_available

/-- One book-ride call preserves the seat-conservation invariant. -/
theorem rideInv_bookDB (db : DB) (c : BookCall) (rid : Nat) (cap : Int)
    (h : rideInv db rid cap) : rideInv (bookDB db c) rid cap := by
  obtain ⟨r, hfind, hsum, hpos⟩ := h
  rcases book_cases db c.userId c.rideId c.seats c.newId with heq | ⟨rd, hfd, ht, hc, h0, heq⟩
  · unfold bookDB
    rw [heq]
    exact ⟨r, hfind, hsum, hpos⟩
  · unfold bookDB
    rw [heq]
    by_cases hr : c.rideId = rid
    · subst hr
      rw [hfind] at hfd
      injection hfd with hfd
      subst hfd
      obtain ⟨_, hbk, _, hfind'⟩ :=
        bookApply_spec db c.userId c.rideId c.seats c.newId r hfind
      refine ⟨_, hfind', ?_, ?_⟩
      · rw [hbk, nonCancelledSum_append]
        have haddend :
            (if (⟨c.newId, c.userId, c.rideId, c.seats, .pending⟩ : Booking).ride_id = c.rideId ∧
                (⟨c.newId, c.userId, c.rideId, c.seats, .pending⟩ : Booking).status ≠
                  BookingStatus.cancelled
             then c.seats else 0) = c.seats := by
          simp
        rw [haddend]
        show nonCancelledSum db.bookings c.rideId + c.seats + (r.seats_available - c.seats) = cap
        linarith [hsum]
      · show (0 : Int) ≤ r.seats_available - c.seats
        linarith [hc]
    · have hfo := bookApply_other db c.userId c.rideId c.seats c.newId rid (Ne.symm hr)
      obtain ⟨_, hbk, _, _⟩ :=
        bookApply_spec db c.userId c.rideId c.seats c.newId rd hfd
      refine ⟨r, by rw [hfo]; exact hfind, ?_, hpos⟩
      rw [hbk, nonCancelledSum_append]
      have haddend :
          (if (⟨c.newId, c.userId, c.rideId, c.seats, .pending⟩ : Booking).ride_id = rid ∧
              (⟨c.newId, c.userId, c.rideId, c.seats, .pending⟩ : Booking).status ≠
                BookingStatus.cancelled
           then c.seats else 0) = 0 := by
        simp [hr]
      rw [haddend, add_zero]
      exact hsum

/-- A sequence of book-ride calls preserves the seat-conservation invariant. -/
theorem rideInv_runBooks (db : DB) (cs : List BookCall) (rid : Nat) (cap : Int)
    (h : rideInv db rid cap) : rideInv (runBooks db cs) rid cap := by
  induction cs generalizing db with
  | nil => exact h
  | cons c cs ih =>
    unfold runBooks at *
    rw [List.foldl_cons]
    exact ih _ (rideInv_bookDB db c rid cap h)

/-- Every guard of the book-ride handler passing reduces the call to its
write phase. -/
theorem book_eq_bookApply (db : DB) (userId rideId : Nat) (seats : Int) (newId : Nat)
    (r : Ride)
    (hfind : findRide db.rides rideId = some r)
    (hterm : isTerminal r.status = false)
    (hseats : seats ≠ 0)
    (hcap : seats ≤ r.seats_available)
    (hdup : confirmedBookings db.bookings userId rideId = []) :
    book db userId rideId seats newId = bookApply db userId rideId seats newId := by
  unfold book
  split
  next h => exact absurd (by simpa using h) hseats
  next =>
    split
    next hf => rw [hfind] at hf; cases hf
    next rd hf =>
      rw [hfind] at hf
      injection hf with hf
      subst hf
      rw [if_neg (by simp [hterm]), if_neg (not_lt.mpr hcap), if_neg (by simp [hdup])]

/-- The no-confirmed-duplicate side condition, stated over the rows, makes the
handler's confirmed-booking SELECT come back empty. -/
theorem confirmedBookings_eq_nil (bookings : List Booking) (userId rideId : Nat)
    (hdup : ∀ b ∈ bookings,
      ¬(b.user_id = userId ∧ b.ride_id = rideId ∧ b.status = .confirmed)) :
    confirmedBookings bookings userId rideId = [] := by
  unfold confirmedBookings
  rw [List.filter_eq_nil_iff]
  intro b hb hcon
  have hcon' : b.user_id = userId ∧ b.ride_id = rideId ∧ b.status = .confirmed := by
    simpa [and_assoc] using hcon
  exact hdup b hb hcon'

theorem markCanceled_user_id (rideId : Nat) (r : Ride) :
    (markCanceled rideId r).user_id = r.user_id := by
  unfold markCanceled
  split <;> rfl

theorem markCanceled_dateTime (rideId : Nat) (r : Ride) :
    (markCanceled rideId r).dateTime = r.dateTime := by
  unfold markCanceled
  split <;> rfl

theorem markCanceled_seats (rideId : Nat) (r : Ride) :
    (markCanceled rideId r).seats_available = r.seats_available := by
  unfold markCanceled
  split <;> rfl

theorem markCanceled_status (rideId : Nat) (r : Ride) :
    (markCanceled rideId r).status =
      if r.id = rideId then RideStatus.canceled else r.status := by
  unfold markCanceled
  by_cases hx : r.id = rideId
  · rw [if_pos (by simp [hx]), if_pos hx]
  · rw [if_neg (by simp [hx]), if_neg hx]

theorem sweepRide_id (now : Nat) (r : Ride) : (sweepRide now r).id = r.id := by
  unfold sweepRide
  split <;> rfl

/-- A row matching the id-and-status rewrite of the request UPDATE ends with
the written status, looked up through the id-only SELECT. -/
theorem find_id_after_set (l : List RideRequest) (requestId : Nat) (s : ReqStatus)
    (hex : (l.find? (fun x => x.id == requestId)).isSome = true) :
    ((l.map (setReqStatus requestId s)).find? (fun x => x.id == requestId)).map
      RideRequest.status = some s := by
  rw [find_map_pres _ _ (fun a => by rw [setReqStatus_id]) l]
  obtain ⟨q', hq'⟩ := Option.isSome_iff_exists.mp hex
  rw [hq']
  show some (setReqStatus requestId s q').status = some s
  unfold setReqStatus
  rw [if_pos (List.find?_some hq')]

/-! ### Claim theorems -/

/-- Claim C1: for every ride, after any sequence of successful and failed
book calls, the sum of seat counts over its non-cancelled bookings is at most
the ride's original seat capacity (its `seats_available` at creation, a
non-negative value per the data model). -/
theorem claim_C1_capacity_invariant (db0 : DB) (rid : Nat) (cap : Int) (r0 : Ride)
    (hfind : findRide db0.rides rid = some r0)
    (hcap : r0.seats_available = cap)
    (hpos : 0 ≤ cap)
    (hempty : nonCancelledSum db0.bookings rid = 0)
    (cs : List BookCall) :
    nonCancelledSum (runBooks db0 cs).bookings rid ≤ cap := by
  have h0 : rideInv db0 rid cap := by
    refine ⟨r0, hfind, ?_, ?_⟩
    · rw [hempty, zero_add, hcap]
    · rw [hcap]
      exact hpos
  obtain ⟨r, _, hsum, hge⟩ := rideInv_runBooks db0 cs rid cap h0
  linarith

/-- Witness for claim C1: a ride of capacity 3 hit with three booking calls
(2 seats, then 2 seats, then 1 seat) ends with at most 3 booked seats. -/
theorem claim_C1_witness :
    nonCancelledSum (runBooks ⟨[⟨1, 9, 100, 3, .open_⟩], [], []⟩
      [⟨2, 1, 2, 10⟩, ⟨3, 1, 2, 11⟩, ⟨4, 1, 1, 12⟩]).bookings 1 ≤ 3 :=
  claim_C1_capacity_invariant ⟨[⟨1, 9, 100, 3, .open_⟩], [], []⟩ 1 3
    ⟨1, 9, 100, 3, .open_⟩ rfl rfl (by decide) rfl
    [⟨2, 1, 2, 10⟩, ⟨3, 1, 2, 11⟩, ⟨4, 1, 1, 12⟩]

/-- Claim C2 counterexample: a call requesting 0 seats ("seats not exceeding
seats_available" holds: 0 ≤ 3) on an open ride whose caller holds no booking
is rejected by the falsy missing-field guard (`!seats`) instead of
succeeding. -/
theorem claim_C2_counterexample :
    (book ⟨[⟨1, 9, 100, 3, .open_⟩], [], []⟩ 2 1 0 10).2 = .missingFields ∧
    (book ⟨[⟨1, 9, 100, 3, .open_⟩], [], []⟩ 2 1 0 10).2 ≠ .booked := by
  exact ⟨rfl, by decide⟩

/-- Claim C2 (amended: the requested seat count must also be nonzero, since
the handler's falsy field check rejects a literal 0): a book call on an
existing non-terminal ride, with nonzero seats not exceeding
`seats_available` and no confirmed booking held by the caller, succeeds,
appends a `pending` booking row with that seat count, decrements the ride's
`seats_available` by exactly `seats`, and sets the status to `full` if and
only if the new `seats_available` is 0, leaving it unchanged otherwise. -/
theorem claim_C2_book_success (db : DB) (userId rideId : Nat) (seats : Int) (newId : Nat)
    (r : Ride)
    (hfind : findRide db.rides rideId = some r)
    (hterm : isTerminal r.status = false)
    (hseats : seats ≠ 0)
    (hcap : seats ≤ r.seats_available)
    (hdup : ∀ b ∈ db.bookings,
      ¬(b.user_id = userId ∧ b.ride_id = rideId ∧ b.status = .confirmed)) :
    (book db userId rideId seats newId).2 = .booked ∧
    (book db userId rideId seats newId).1.bookings =
      db.bookings ++ [⟨newId, userId, rideId, seats, .pending⟩] ∧
    findRide (book db userId rideId seats newId).1.rides rideId =
      some { r with seats_available := r.seats_available - seats,
                    status := if r.seats_available - seats = 0 then .full else r.status } := by
  have heq := book_eq_bookApply db userId rideId seats newId r hfind hterm hseats hcap
    (confirmedBookings_eq_nil db.bookings userId rideId hdup)
  obtain ⟨h1, h2, _, h4⟩ := bookApply_spec db userId rideId seats newId r hfind
  rw [heq]
  exact ⟨h1, h2, h4⟩

/-- Witness for claim C2, running the spec's 3-seat scenario: booking 2 of 3
seats succeeds (via the claim theorem) leaving 1 seat and status `open`;
booking 2 more fails with the capacity error and leaves the store unchanged;
booking the last seat succeeds leaving 0 seats and status `full`. -/
theorem claim_C2_witness :
    (book ⟨[⟨1, 9, 100, 3, .open_⟩], [], []⟩ 2 1 2 10).2 = .booked ∧
    findRide (book ⟨[⟨1, 9, 100, 3, .open_⟩], [], []⟩ 2 1 2 10).1.rides 1 =
      some ⟨1, 9, 100, 1, .open_⟩ ∧
    (book (book ⟨[⟨1, 9, 100, 3, .open_⟩], [], []⟩ 2 1 2 10).1 3 1 2 11).2 =
      .capacityExceeded ∧
    (book (book ⟨[⟨1, 9, 100, 3, .open_⟩], [], []⟩ 2 1 2 10).1 3 1 2 11).1 =
      (book ⟨[⟨1, 9, 100, 3, .open_⟩], [], []⟩ 2 1 2 10).1 ∧
    (book (book ⟨[⟨1, 9, 100, 3, .open_⟩], [], []⟩ 2 1 2 10).1 4 1 1 12).2 = .booked ∧
    findRide (book (book ⟨[⟨1, 9, 100, 3, .open_⟩], [], []⟩ 2 1 2 10).1 4 1 1 12).1.rides 1 =
      some ⟨1, 9, 100, 0, .full⟩ := by
  refine ⟨(claim_C2_book_success ⟨[⟨1, 9, 100, 3, .open_⟩], [], []⟩ 2 1 2 10
      ⟨1, 9, 100, 3, .open_⟩ rfl rfl (by decide) (by decide) (by decide)).1,
    by decide, by decide, by decide, by decide, by decide⟩

/-- Claim C3 counterexample: a book call requesting 0 seats against a
canceled ride is rejected by the falsy missing-field guard, not with the
invalid-state error the claim requires for every call. -/
theorem claim_C3_counterexample :
    (book ⟨[⟨1, 9, 100, 2, .canceled⟩], [], []⟩ 2 1 0 10).2 = .missingFields ∧
    (book ⟨[⟨1, 9, 100, 2, .canceled⟩], [], []⟩ 2 1 0 10).2 ≠
      .invalidState .canceled := by
  exact ⟨rfl, by decide⟩

/-- Claim C3 (amended: restricted to calls with nonzero seats, since a 0-seat
call trips the falsy missing-field guard first): a book call with nonzero
seats against a ride whose status is `completed` or `canceled` fails with the
invalid-state error naming that status, deterministically, and the store —
bookings and ride rows alike — is exactly unchanged. -/
theorem claim_C3_terminal_rejects (db : DB) (userId rideId : Nat) (seats : Int)
    (newId : Nat) (r : Ride)
    (hfind : findRide db.rides rideId = some r)
    (hterm : isTerminal r.status = true)
    (hseats : seats ≠ 0) :
    book db userId rideId seats newId = (db, .invalidState r.status) := by
  unfold book
  split
  next h => exact absurd (by simpa using h) hseats
  next =>
    split
    next hf => rw [hfind] at hf; cases hf
    next rd hf =>
      rw [hfind] at hf
      injection hf with hf
      subst hf
      rw [if_pos hterm]

/-- Witness for claim C3: booking 1 seat on a completed ride returns the
invalid-state error and leaves the store untouched. -/
theorem claim_C3_witness :
    book ⟨[⟨1, 9, 100, 2, .completed⟩], [], []⟩ 2 1 1 10 =
      (⟨[⟨1, 9, 100, 2, .completed⟩], [], []⟩, .invalidState .completed) :=
  claim_C3_terminal_rejects ⟨[⟨1, 9, 100, 2, .completed⟩], [], []⟩ 2 1 1 10
    ⟨1, 9, 100, 2, .completed⟩ rfl rfl (by decide)

/-- Claim C4 counterexample: the caller holds a confirmed booking on ride 1,
yet the book call fails with the invalid-state error (the ride is completed,
and that guard runs first), not with the duplicate-booking error, so the
stated biconditional fails. -/
theorem claim_C4_counterexample :
    ¬(((book ⟨[⟨1, 9, 100, 3, .completed⟩], [⟨50, 2, 1, 1, .confirmed⟩], []⟩ 2 1 1 99).2 =
        .duplicateBooking) ↔
      (∃ b ∈ (⟨[⟨1, 9, 100, 3, .completed⟩], [⟨50, 2, 1, 1, .confirmed⟩], []⟩ : DB).bookings,
        b.user_id = 2 ∧ b.ride_id = 1 ∧ b.status = .confirmed)) := by
  decide

/-- Claim C4 (amended: the biconditional holds among calls that pass the
earlier guards — nonzero seats, ride exists, status non-terminal, capacity
sufficient; with an earlier guard failing, that guard's error wins): such a
call fails with the duplicate-booking error if and only if the caller already
holds a `confirmed` booking on the ride; in particular a caller whose
bookings on the ride are all `pending` or `cancelled` passes the duplicate
check. -/
theorem claim_C4_duplicate_iff (db : DB) (userId rideId : Nat) (seats : Int)
    (newId : Nat) (r : Ride)
    (hfind : findRide db.rides rideId = some r)
    (hterm : isTerminal r.status = false)
    (hseats : seats ≠ 0)
    (hcap : seats ≤ r.seats_available) :
    (book db userId rideId seats newId).2 = .duplicateBooking ↔
      ∃ b ∈ db.bookings, b.user_id = userId ∧ b.ride_id = rideId ∧
        b.status = .confirmed := by
  unfold book
  split
  next h => exact absurd (by simpa using h) hseats
  next =>
    split
    next hf => rw [hfind] at hf; cases hf
    next rd hf =>
      rw [hfind] at hf
      injection hf with hf
      subst hf
      rw [if_neg (by simp [hterm]), if_neg (not_lt.mpr hcap)]
      by_cases hd : 0 < (confirmedBookings db.bookings userId rideId).length
      · rw [if_pos hd]
        constructor
        · intro _
          obtain ⟨b, hbf⟩ := List.exists_mem_of_length_pos hd
          have hmem := List.mem_filter.mp hbf
          refine ⟨b, hmem.1, ?_⟩
          simpa [and_assoc] using hmem.2
        · intro _
          rfl
      · rw [if_neg hd]
        constructor
        · intro hres
          obtain ⟨h1, _, _, _⟩ := bookApply_spec db userId rideId seats newId r hfind
          rw [h1] at hres
          cases hres
        · rintro ⟨b, hb, h1, h2, h3⟩
          exfalso
          apply hd
          have hbf : b ∈ confirmedBookings db.bookings userId rideId := by
            unfold confirmedBookings
            exact List.mem_filter.mpr ⟨hb, by simp [h1, h2, h3]⟩
          exact List.length_pos_of_mem hbf

/-- Witness for claim C4: on an open 3-seat ride where the caller's only
booking is still pending, a second booking attempt does not trip the
duplicate guard, matching the absence of a confirmed booking. -/
theorem claim_C4_witness :
    ((book ⟨[⟨1, 9, 100, 3, .open_⟩], [⟨50, 2, 1, 1, .pending⟩], []⟩ 2 1 1 99).2 =
        .duplicateBooking ↔
      ∃ b ∈ (⟨[⟨1, 9, 100, 3, .open_⟩], [⟨50, 2, 1, 1, .pending⟩], []⟩ : DB).bookings,
        b.user_id = 2 ∧ b.ride_id = 1 ∧ b.status = .confirmed) :=
  claim_C4_duplicate_iff ⟨[⟨1, 9, 100, 3, .open_⟩], [⟨50, 2, 1, 1, .pending⟩], []⟩ 2 1 1 99
    ⟨1, 9, 100, 3, .open_⟩ rfl rfl (by decide) (by decide)

/-- Claim C5 counterexample: a `completed` ride canceled by its owning driver
has its terminal status overwritten to `canceled` — terminal statuses are not
immutable under cancelRide. -/
theorem claim_C5_counterexample :
    (findRide (⟨[⟨1, 9, 100, 2, .completed⟩], [], []⟩ : DB).rides 1).map Ride.status =
      some .completed ∧
    (findRide (cancelRide ⟨[⟨1, 9, 100, 2, .completed⟩], [], []⟩ 1 9).1.rides 1).map
      Ride.status = some .canceled := by
  exact ⟨rfl, rfl⟩

/-- Claim C5 (amended: book calls and the Sweeper indeed never mutate a
terminal ride's row, and no operation ever mutates a terminal ride's
`seats_available`; but cancelRide by the owning driver overwrites the status
unconditionally, so a `completed` ride can still become `canceled`): for a
ride in terminal status, any book call and any sweeper run leave its row
exactly unchanged, and any cancelRide call leaves its `seats_available`
unchanged. -/
theorem claim_C5_terminal_frame (db : DB) (rid : Nat) (r : Ride)
    (hfind : findRide db.rides rid = some r)
    (hterm : isTerminal r.status = true) :
    (∀ c : BookCall, findRide (bookDB db c).rides rid = some r) ∧
    (∀ now : Nat, findRide (sweep db now).rides rid = some r) ∧
    (∀ rid' userId : Nat,
      (findRide (cancelRide db rid' userId).1.rides rid).map Ride.seats_available =
        some r.seats_available) := by
  refine ⟨?_, ?_, ?_⟩
  · intro c
    rcases book_cases db c.userId c.rideId c.seats c.newId with heq | ⟨rd, hfd, ht, _, _, heq⟩
    · unfold bookDB
      rw [heq]
      exact hfind
    · by_cases hr : c.rideId = rid
      · subst hr
        rw [hfind] at hfd
        injection hfd with hfd
        subst hfd
        rw [hterm] at ht
        cases ht
      · unfold bookDB
        rw [heq, bookApply_other db c.userId c.rideId c.seats c.newId rid (Ne.symm hr)]
        exact hfind
  · intro now
    show findRide (db.rides.map (sweepRide now)) rid = some r
    rw [show findRide (db.rides.map (sweepRide now)) rid =
          (findRide db.rides rid).map (sweepRide now) from
        find_map_pres _ _ (fun a => by rw [sweepRide_id]) db.rides, hfind]
    show some (sweepRide now r) = some r
    unfold sweepRide
    rw [if_neg (by simp [hterm])]
  · intro rid' userId
    unfold cancelRide
    split
    next =>
      rw [hfind]
      rfl
    next =>
      show (findRide (db.rides.map (markCanceled rid')) rid).map Ride.seats_available = _
      rw [show findRide (db.rides.map (markCanceled rid')) rid =
            (findRide db.rides rid).map (markCanceled rid') from
          findRide_map_markCanceled db.rides rid' rid, hfind]
      show some (markCanceled rid' r).seats_available = some r.seats_available
      rw [markCanceled_seats]

/-- Witness for claim C5: a canceled ride survives a book call, a sweeper run
at a later time, and a cancel attempt, with row (respectively seat count)
unchanged. -/
theorem claim_C5_witness :
    findRide (bookDB ⟨[⟨1, 9, 100, 2, .canceled⟩], [], []⟩ ⟨2, 1, 1, 10⟩).rides 1 =
      some ⟨1, 9, 100, 2, .canceled⟩ ∧
    findRide (sweep ⟨[⟨1, 9, 100, 2, .canceled⟩], [], []⟩ 200).rides 1 =
      some ⟨1, 9, 100, 2, .canceled⟩ ∧
    (findRide (cancelRide ⟨[⟨1, 9, 100, 2, .canceled⟩], [], []⟩ 1 9).1.rides 1).map
      Ride.seats_available = some 2 :=
  ⟨(claim_C5_terminal_frame ⟨[⟨1, 9, 100, 2, .canceled⟩], [], []⟩ 1
      ⟨1, 9, 100, 2, .canceled⟩ rfl rfl).1 ⟨2, 1, 1, 10⟩,
   (claim_C5_terminal_frame ⟨[⟨1, 9, 100, 2, .canceled⟩], [], []⟩ 1
      ⟨1, 9, 100, 2, .canceled⟩ rfl rfl).2.1 200,
   (claim_C5_terminal_frame ⟨[⟨1, 9, 100, 2, .canceled⟩], [], []⟩ 1
      ⟨1, 9, 100, 2, .canceled⟩ rfl rfl).2.2 1 9⟩

/-- Claim C6: on an existing non-terminal ride with non-negative
`seats_available` (the data model's range for the column), a book call for a
negative seat count by a caller with no confirmed booking on the ride
succeeds: the capacity guard `seats_available < seats` does not reject it, a
`pending` booking row with the negative count is appended, and the ride's
`seats_available` becomes `seats_available - seats`, strictly above its
previous value. -/
theorem claim_C6_negative_seats (db : DB) (userId rideId : Nat) (seats : Int)
    (newId : Nat) (r : Ride)
    (hfind : findRide db.rides rideId = some r)
    (hterm : isTerminal r.status = false)
    (hpos : 0 ≤ r.seats_available)
    (hneg : seats < 0)
    (hdup : ∀ b ∈ db.bookings,
      ¬(b.user_id = userId ∧ b.ride_id = rideId ∧ b.status = .confirmed)) :
    (book db userId rideId seats newId).2 = .booked ∧
    (book db userId rideId seats newId).1.bookings =
      db.bookings ++ [⟨newId, userId, rideId, seats, .pending⟩] ∧
    ∃ r', findRide (book db userId rideId seats newId).1.rides rideId = some r' ∧
      r'.seats_available = r.seats_available - seats ∧
      r.seats_available < r'.seats_available := by
  have hseats : seats ≠ 0 := ne_of_lt hneg
  have hcap : seats ≤ r.seats_available := by linarith
  have heq := book_eq_bookApply db userId rideId seats newId r hfind hterm hseats hcap
    (confirmedBookings_eq_nil db.bookings userId rideId hdup)
  obtain ⟨h1, h2, _, h4⟩ := bookApply_spec db userId rideId seats newId r hfind
  rw [heq]
  refine ⟨h1, h2, _, h4, rfl, ?_⟩
  show r.seats_available < r.seats_available - seats
  linarith

/-- Witness for claim C6: requesting −4 seats on an open 3-seat ride succeeds
and drives `seats_available` up to 7. -/
theorem claim_C6_witness :
    (book ⟨[⟨1, 9, 100, 3, .open_⟩], [], []⟩ 2 1 (-4) 10).2 = .booked ∧
    (book ⟨[⟨1, 9, 100, 3, .open_⟩], [], []⟩ 2 1 (-4) 10).1.bookings =
      [⟨10, 2, 1, -4, .pending⟩] ∧
    ∃ r', findRide (book ⟨[⟨1, 9, 100, 3, .open_⟩], [], []⟩ 2 1 (-4) 10).1.rides 1 =
        some r' ∧ r'.seats_available = 3 - (-4) ∧ (3 : Int) < r'.seats_available :=
  claim_C6_negative_seats ⟨[⟨1, 9, 100, 3, .open_⟩], [], []⟩ 2 1 (-4) 10
    ⟨1, 9, 100, 3, .open_⟩ rfl rfl (by decide) (by decide) (by decide)

/-- Claim C7: a cancelRide call whose caller does not own the target ride —
including the case where no such ride exists — fails with the single merged
forbidden/not-found outcome and leaves the whole store exactly unchanged. -/
theorem claim_C7_cancel_nonowner (db : DB) (rideId userId : Nat)
    (h : ∀ r ∈ db.rides, r.id = rideId → r.user_id ≠ userId) :
    cancelRide db rideId userId = (db, .forbidden) := by
  have hnone : db.rides.find? (fun r => r.id == rideId && r.user_id == userId) = none := by
    rw [List.find?_eq_none]
    intro r hr hcon
    obtain ⟨h1, h2⟩ : r.id = rideId ∧ r.user_id = userId := by simpa using hcon
    exact h r hr h1 h2
  unfold cancelRide
  rw [hnone]

/-- Witness for claim C7: user 5 cancelling a ride owned by user 9 gets the
merged forbidden outcome and the store is unchanged; so does cancelling a
ride id that does not exist. -/
theorem claim_C7_witness :
    cancelRide ⟨[⟨1, 9, 100, 2, .open_⟩], [], []⟩ 1 5 =
      (⟨[⟨1, 9, 100, 2, .open_⟩], [], []⟩, .forbidden) ∧
    cancelRide ⟨[⟨1, 9, 100, 2, .open_⟩], [], []⟩ 3 9 =
      (⟨[⟨1, 9, 100, 2, .open_⟩], [], []⟩, .forbidden) :=
  ⟨claim_C7_cancel_nonowner ⟨[⟨1, 9, 100, 2, .open_⟩], [], []⟩ 1 5 (by decide),
   claim_C7_cancel_nonowner ⟨[⟨1, 9, 100, 2, .open_⟩], [], []⟩ 3 9 (by decide)⟩

/-- Claim C8: a successful cancelRide by the owning driver sets the status of
the target ride's rows to `canceled` unconditionally and changes nothing
else: bookings and ride requests are untouched, and every ride row keeps its
id, driver, schedule and — in particular — its `seats_available`; only the
status of rows with the target id changes. -/
theorem claim_C8_cancel_owner_frame (db : DB) (rideId userId : Nat) (r : Ride)
    (h : db.rides.find? (fun x => x.id == rideId && x.user_id == userId) = some r) :
    (cancelRide db rideId userId).2 = .canceled ∧
    (cancelRide db rideId userId).1.bookings = db.bookings ∧
    (cancelRide db rideId userId).1.ride_requests = db.ride_requests ∧
    ∀ i : Nat,
      ((cancelRide db rideId userId).1.rides.get? i).map Ride.id =
        (db.rides.get? i).map Ride.id ∧
      ((cancelRide db rideId userId).1.rides.get? i).map Ride.user_id =
        (db.rides.get? i).map Ride.user_id ∧
      ((cancelRide db rideId userId).1.rides.get? i).map Ride.dateTime =
        (db.rides.get? i).map Ride.dateTime ∧
      ((cancelRide db rideId userId).1.rides.get? i).map Ride.seats_available =
        (db.rides.get? i).map Ride.seats_available ∧
      ((cancelRide db rideId userId).1.rides.get? i).map Ride.status =
        (db.rides.get? i).map
          (fun x => if x.id = rideId then RideStatus.canceled else x.status) := by
  unfold cancelRide
  rw [h]
  refine ⟨rfl, rfl, rfl, fun i => ?_⟩
  show ((db.rides.map (markCanceled rideId)).get? i).map Ride.id = _ ∧ _
  rw [List.get?_map]
  cases hx : db.rides.get? i with
  | none => exact ⟨rfl, rfl, rfl, rfl, rfl⟩
  | some x =>
    refine ⟨?_, ?_, ?_, ?_, ?_⟩
    · show some (markCanceled rideId x).id = some x.id
      rw [markCanceled_id]
    · show some (markCanceled rideId x).user_id = some x.user_id
      rw [markCanceled_user_id]
    · show some (markCanceled rideId x).dateTime = some x.dateTime
      rw [markCanceled_dateTime]
    · show some (markCanceled rideId x).seats_available = some x.seats_available
      rw [markCanceled_seats]
    · show some (markCanceled rideId x).status =
        some (if x.id = rideId then RideStatus.canceled else x.status)
      rw [markCanceled_status]

/-- Witness for claim C8: the owner cancels an open 2-seat ride. The call
succeeds; bookings, requests, and every ride-row field except the target's
status — checked here at row 0 via the claim theorem — are unchanged. -/
theorem claim_C8_witness :
    (cancelRide ⟨[⟨1, 9, 100, 2, .open_⟩], [⟨50, 2, 1, 1, .pending⟩], []⟩ 1 9).2 =
      .canceled ∧
    (cancelRide ⟨[⟨1, 9, 100, 2, .open_⟩], [⟨50, 2, 1, 1, .pending⟩], []⟩ 1 9).1.bookings =
      [⟨50, 2, 1, 1, .pending⟩] ∧
    ((cancelRide ⟨[⟨1, 9, 100, 2, .open_⟩], [⟨50, 2, 1, 1, .pending⟩], []⟩ 1 9).1.rides.get?
        0).map Ride.seats_available =
      (([⟨1, 9, 100, 2, .open_⟩] : List Ride).get? 0).map Ride.seats_available :=
  ⟨(claim_C8_cancel_owner_frame ⟨[⟨1, 9, 100, 2, .open_⟩], [⟨50, 2, 1, 1, .pending⟩], []⟩
      1 9 ⟨1, 9, 100, 2, .open_⟩ rfl).1,
   (claim_C8_cancel_owner_frame ⟨[⟨1, 9, 100, 2, .open_⟩], [⟨50, 2, 1, 1, .pending⟩], []⟩
      1 9 ⟨1, 9, 100, 2, .open_⟩ rfl).2.1,
   ((claim_C8_cancel_owner_frame ⟨[⟨1, 9, 100, 2, .open_⟩], [⟨50, 2, 1, 1, .pending⟩], []⟩
      1 9 ⟨1, 9, 100, 2, .open_⟩ rfl).2.2.2 0).2.2.2.1⟩

/-- Claim C9 counterexample: request 1, addressed to driver 5 and pending, is
first rejected (its one permitted transition), then a later accept by the
same driver overwrites the status again — the request is not terminal after
its first transition. -/
theorem claim_C9_counterexample :
    ((rejectRequest ⟨[], [], [⟨1, 1, 2, 5, 7, .pending⟩]⟩ 1 5).1.ride_requests.find?
        (fun x => x.id == 1)).map RideRequest.status = some .rejected ∧
    ((acceptRequest (rejectRequest ⟨[], [], [⟨1, 1, 2, 5, 7, .pending⟩]⟩ 1 5).1
        1 5).1.ride_requests.find? (fun x => x.id == 1)).map RideRequest.status =
      some .accepted := by
  exact ⟨rfl, rfl⟩

/-- Claim C9 (amended: accept/reject by the addressed driver set the
request's status unconditionally — there is no guard on the current status,
so the first transition is not terminal and a later accept or reject by the
addressed driver mutates the status again): whenever the authorization lookup
matches, accept sets the status to `accepted` and reject sets it to
`rejected`, whatever the status was before. -/
theorem claim_C9_request_overwrite (db : DB) (requestId driverId : Nat) (q : RideRequest)
    (h : db.ride_requests.find?
      (fun x => x.id == requestId && x.driver_id == driverId) = some q) :
    ((acceptRequest db requestId driverId).1.ride_requests.find?
        (fun x => x.id == requestId)).map RideRequest.status = some .accepted ∧
    ((rejectRequest db requestId driverId).1.ride_requests.find?
        (fun x => x.id == requestId)).map RideRequest.status = some .rejected := by
  have hmem := List.mem_of_find?_eq_some h
  have hp : (q.id == requestId) = true := by
    have hq := List.find?_some h
    have : q.id = requestId ∧ q.driver_id = driverId := by simpa using hq
    simp [this.1]
  have hex : (db.ride_requests.find? (fun x => x.id == requestId)).isSome = true :=
    List.find?_isSome.mpr ⟨q, hmem, hp⟩
  constructor
  · unfold acceptRequest
    rw [h]
    exact find_id_after_set db.ride_requests requestId .accepted hex
  · unfold rejectRequest
    rw [h]
    exact find_id_after_set db.ride_requests requestId .rejected hex

/-- Witness for claim C9: driver 5 accepting (or rejecting) their pending
request 1 lands the corresponding status. -/
theorem claim_C9_witness :
    ((acceptRequest ⟨[], [], [⟨1, 1, 2, 5, 7, .pending⟩]⟩ 1 5).1.ride_requests.find?
        (fun x => x.id == 1)).map RideRequest.status = some .accepted ∧
    ((rejectRequest ⟨[], [], [⟨1, 1, 2, 5, 7, .pending⟩]⟩ 1 5).1.ride_requests.find?
        (fun x => x.id == 1)).map RideRequest.status = some .rejected :=
  claim_C9_request_overwrite ⟨[], [], [⟨1, 1, 2, 5, 7, .pending⟩]⟩ 1 5
    ⟨1, 1, 2, 5, 7, .pending⟩ rfl

/-- Claim C10: one sweeper run at time `now` touches no bookings and no ride
requests; a ride row becomes `completed` exactly when its schedule is
strictly in the past and its status is not already terminal, all other
fields and all other rows being unchanged; and a second run at the same time
on the swept state is a no-op. -/
theorem claim_C10_sweep_correct (db : DB) (now : Nat) :
    (sweep db now).bookings = db.bookings ∧
    (sweep db now).ride_requests = db.ride_requests ∧
    (∀ i : Nat, ∀ r : Ride, db.rides.get? i = some r →
      ∃ r', (sweep db now).rides.get? i = some r' ∧
        r'.id = r.id ∧ r'.user_id = r.user_id ∧ r'.dateTime = r.dateTime ∧
        r'.seats_available = r.seats_available ∧
        r'.status = (if r.dateTime < now ∧ isTerminal r.status = false
                     then RideStatus.completed else r.status)) ∧
    sweep (sweep db now) now = sweep db now := by
  have hrr : ∀ r, sweepRide now (sweepRide now r) = sweepRide now r := by
    intro r
    unfold sweepRide
    by_cases hb : (decide (r.dateTime < now) && !isTerminal r.status) = true
    · rw [if_pos hb]
      rw [if_neg (by simp [isTerminal])]
    · rw [if_neg hb, if_neg hb]
  have hmapmap : ∀ l : List Ride,
      (l.map (sweepRide now)).map (sweepRide now) = l.map (sweepRide now) := by
    intro l
    induction l with
    | nil => rfl
    | cons a t ih =>
      rw [List.map_cons, List.map_cons, hrr a, ih]
  refine ⟨rfl, rfl, ?_, ?_⟩
  · intro i r hi
    show ∃ r', (db.rides.map (sweepRide now)).get? i = some r' ∧ _
    rw [List.get?_map, hi]
    refine ⟨sweepRide now r, rfl, ?_⟩
    unfold sweepRide
    by_cases hb : (decide (r.dateTime < now) && !isTerminal r.status) = true
    · rw [if_pos hb]
      have hcond : r.dateTime < now ∧ isTerminal r.status = false := by
        simpa using hb
      exact ⟨rfl, rfl, rfl, rfl, (if_pos hcond).symm⟩
    · rw [if_neg hb]
      have hcond : ¬(r.dateTime < now ∧ isTerminal r.status = false) := by
        intro hc
        exact hb (by simp [hc.1, hc.2])
      exact ⟨rfl, rfl, rfl, rfl, (if_neg hcond).symm⟩
  · show DB.mk ((db.rides.map (sweepRide now)).map (sweepRide now))
        db.bookings db.ride_requests =
      DB.mk (db.rides.map (sweepRide now)) db.bookings db.ride_requests
    rw [hmapmap db.rides]

/-- Witness for claim C10: an open ride scheduled at 100 swept at 200 becomes
`completed`, and sweeping again at 200 changes nothing. -/
theorem claim_C10_witness :
    ((sweep ⟨[⟨1, 9, 100, 2, .open_⟩], [], []⟩ 200).rides.get? 0).map Ride.status =
      some .completed ∧
    sweep (sweep ⟨[⟨1, 9, 100, 2, .open_⟩], [], []⟩ 200) 200 =
      sweep ⟨[⟨1, 9, 100, 2, .open_⟩], [], []⟩ 200 := by
  obtain ⟨-, -, hpoint, hidem⟩ :=
    claim_C10_sweep_correct ⟨[⟨1, 9, 100, 2, .open_⟩], [], []⟩ 200
  obtain ⟨r', hr', -, -, -, -, hst⟩ := hpoint 0 ⟨1, 9, 100, 2, .open_⟩ rfl
  refine ⟨?_, hidem⟩
  rw [hr']
  show some r'.status = some RideStatus.completed
  rw [hst, if_pos (by exact ⟨by norm_num, rfl⟩)]

end RidePool
